import Mathlib

/-!
# Verification of the voice-mcp conversation stack

Shallow embedding, in Lean 4, of the pure/deterministic cores of the
voice-mcp repository:

* `voice_mcp/providers.py` — provider registry, availability prober,
  Gemini WAV header synthesis and MIME parameter parsing;
* `voice_mcp/tools/conversation.py` — TTS/STT config resolution,
  emotion validation, the silence-endpointing capture loop, and the
  local-transport conversation turn;
* `voice_mcp/settings.py` — the persisted user settings manager.

I/O effects (HTTP probes, microphone reads, the STT API, the file system
and process environment) are modeled by explicit inputs (oracles) and by
explicit state records; Python exceptions are modeled with `Except` /
`Option`.  Python machine floats used for durations are modeled with `ℚ`.
-/

/-! ## Python-style string primitives

The source manipulates Python `str` values; strings are embedded as
`List Char` with translations of the `str` methods the code uses. -/

/-- Python `s.split(sep)` for a one-character separator: `"".split(";") = [""]`,
separators at the ends produce empty pieces. -/
def pySplit (sep : Char) : List Char → List (List Char)
  | [] => [[]]
  | c :: cs =>
    if c = sep then [] :: pySplit sep cs
    else
      match pySplit sep cs with
      | [] => [[c]]
      | p :: ps => (c :: p) :: ps

/-- The part of `s` after the first occurrence of `sep`, i.e. Python's
`s.split(sep, 1)[1]`; `none` models the `IndexError` raised by `[1]`
when `sep` does not occur. -/
def pySplitOnce (sep : Char) : List Char → Option (List Char)
  | [] => none
  | c :: cs => if c = sep then some cs else pySplitOnce sep cs

/-- Python `s.strip()`: remove leading and trailing whitespace. -/
def pyStrip (s : List Char) : List Char :=
  ((s.dropWhile Char.isWhitespace).reverse.dropWhile Char.isWhitespace).reverse

/-- Python `s.lower()`, restricted to the ASCII range exercised by the code. -/
def pyLower (s : List Char) : List Char :=
  s.map Char.toLower

/-- Continuation of Python's decimal int literal after its first digit:
further digits, with single underscores allowed only between digits. -/
def udTail : List Char → Bool
  | [] => true
  | c :: rest =>
    if c.isDigit then udTail rest
    else if c = '_' then
      match rest with
      | d :: rest2 => d.isDigit && udTail rest2
      | [] => false
    else false

/-- Python's decimal int digit sequence: one digit, then digits with
single underscores between digits (`"1_000"` is accepted, `"_1"`,
`"1_"`, `"1__0"` are not). -/
def underscoreDigits : List Char → Bool
  | [] => false
  | c :: rest => c.isDigit && udTail rest

/-- The value of a digit sequence after removing its underscores. -/
def udVal (s : List Char) : ℤ :=
  (((s.filter (fun c => c != '_')).foldl
      (fun a c => a * 10 + (c.toNat - 48)) 0 : ℕ) : ℤ)

/-- `int(...)` on an already-stripped string: an optional single sign
followed by a digit sequence with underscore grouping; everything else
raises `ValueError` (`none`). -/
def pyIntSigned : List Char → Option ℤ
  | [] => none
  | c :: rest =>
    if c = '+' then
      if underscoreDigits rest then some (udVal rest) else none
    else if c = '-' then
      if underscoreDigits rest then some (-(udVal rest)) else none
    else if underscoreDigits (c :: rest) then some (udVal (c :: rest))
    else none

/-- Python `int(s)` for base-10 string arguments: surrounding whitespace
is ignored, an optional sign and underscore digit grouping are accepted,
and any other shape raises `ValueError`, modeled by `none`.  Digits and
whitespace are modeled over the ASCII alphabet these MIME parameter
strings use. -/
def pyInt (s : List Char) : Option ℤ :=
  pyIntSigned (pyStrip s)

/-- `needle in haystack` on Python strings: contiguous substring test. -/
def containsSub (needle hay : List Char) : Bool :=
  hay.tails.any (fun t => needle.isPrefixOf t)

/-- The decimal digit character for `d < 10`. -/
def digitChar (d : ℕ) : Char :=
  Char.ofNat (48 + d)

/-- Python `str(n)` for a natural number: decimal digits, no sign. -/
def natDigits (n : ℕ) : List Char :=
  if h : n < 10 then [digitChar n]
  else natDigits (n / 10) ++ [digitChar (n % 10)]
  termination_by n
  decreasing_by
    exact Nat.div_lt_self (by omega) (by omega)

/-! ## MIME audio-parameter parsing and WAV header synthesis

From `GeminiTTSProvider._parse_audio_mime_type` and
`GeminiTTSProvider._convert_to_wav` (identical copies live in
`voice_mcp/providers.py` and `voice_mcp/providers/gemini_tts.py`). -/

/-- The dictionary returned by `_parse_audio_mime_type`; the values are
Python ints, so they may be negative (e.g. a `rate=-5` parameter). -/
structure MimeParams where
  bits_per_sample : ℤ
  rate : ℤ
deriving DecidableEq

/-- Does the (stripped) parameter qualify as a `rate=` parameter?
The source lowercases the parameter before the test. -/
def isRateParam (p : List Char) : Bool :=
  List.isPrefixOf (("rate=").toList) (pyLower p)

/-- Does the (stripped) parameter qualify as an `audio/L<bits>` parameter?
This test is case sensitive in the source. -/
def isBitsParam (p : List Char) : Bool :=
  List.isPrefixOf (("audio/L").toList) p

/-- The rate value carried by a (stripped) `rate=` parameter, when its
payload parses as an integer; `param.split("=", 1)[1]` then `int(...)`,
with `ValueError` / `IndexError` modeled by `none`. -/
def rateVal (p : List Char) : Option ℤ :=
  match pySplitOnce '=' p with
  | some rest => pyInt rest
  | none => none

/-- The bit-depth value carried by a (stripped) `audio/L` parameter, when
its payload parses as an integer; `param.split("L", 1)[1]` then `int(...)`. -/
def bitsVal (p : List Char) : Option ℤ :=
  match pySplitOnce 'L' p with
  | some rest => pyInt rest
  | none => none

/-- Processing of one `;`-separated parameter by `_parse_audio_mime_type`:
strip, then the `rate=` branch, else the `audio/L` branch, keeping the
accumulated values when the parameter is absent or malformed. -/
def parseParam (acc : MimeParams) (p0 : List Char) : MimeParams :=
  if isRateParam (pyStrip p0) then
    match rateVal (pyStrip p0) with
    | some r => { acc with rate := r }
    | none => acc
  else if isBitsParam (pyStrip p0) then
    match bitsVal (pyStrip p0) with
    | some b => { acc with bits_per_sample := b }
    | none => acc
  else acc

/-- `GeminiTTSProvider._parse_audio_mime_type`: split on `;`, fold the
parameters over the defaults of 16 bits per sample and 24000 Hz. -/
def parse_audio_mime_type (mime : List Char) : MimeParams :=
  (pySplit ';' mime).foldl parseParam { bits_per_sample := 16, rate := 24000 }

/-- Modelled from the spec: the MIME-style descriptor `audio/L<bits>;rate=<rate>`
named by §6 and by the round-trip property of §8; the source only ever
builds the literal `audio/L16;rate=24000`, so the general formatter is
taken from the spec's words. -/
def formatMime (rate bits : ℕ) : List Char :=
  ("audio/L").toList ++ natDigits bits ++ (";rate=").toList ++ natDigits rate

/-- Little-endian bytes of a `struct.pack` `<H` (uint16) field. -/
def le16 (n : ℕ) : List ℕ :=
  [n % 256, n / 256 % 256]

/-- Little-endian bytes of a `struct.pack` `<I` (uint32) field. -/
def le32 (n : ℕ) : List ℕ :=
  [n % 256, n / 256 % 256, n / 65536 % 256, n / 16777216 % 256]

/-- `struct.pack` of one `H` field: out-of-range values raise `struct.error`. -/
def packU16 (n : ℕ) : Except String (List ℕ) :=
  if n < 65536 then Except.ok (le16 n) else Except.error ("struct.error")

/-- `struct.pack` of one `I` field: out-of-range values raise `struct.error`. -/
def packU32 (n : ℕ) : Except String (List ℕ) :=
  if n < 4294967296 then Except.ok (le32 n) else Except.error ("struct.error")

/-- ASCII bytes of a 4-character chunk tag (`4s` fields of the pack format). -/
def tag4 (s : String) : List ℕ :=
  s.toList.map Char.toNat

/-- The 44-byte header built by `_convert_to_wav` via
`struct.pack("<4sI4s4sIHHIIHH4sI", ...)`: RIFF chunk id, chunk size
`36 + data_size`, WAVE and fmt tags, PCM format fields derived from the
bit depth and sample rate, then the data tag and the data size. -/
def wavHeader (bits_per_sample sample_rate data_size : ℕ) : Except String (List ℕ) := do
  let num_channels := 1
  let bytes_per_sample := bits_per_sample / 8
  let block_align := num_channels * bytes_per_sample
  let byte_rate := sample_rate * block_align
  let chunk_size := 36 + data_size
  let f1 ← packU32 chunk_size
  let f2 ← packU32 16
  let f3 ← packU16 1
  let f4 ← packU16 num_channels
  let f5 ← packU32 sample_rate
  let f6 ← packU32 byte_rate
  let f7 ← packU16 block_align
  let f8 ← packU16 bits_per_sample
  let f9 ← packU32 data_size
  Except.ok (tag4 ("RIFF") ++ f1 ++ tag4 ("WAVE") ++ tag4 ("fmt ") ++ f2 ++
    f3 ++ f4 ++ f5 ++ f6 ++ f7 ++ f8 ++ tag4 ("data") ++ f9)

/-- `GeminiTTSProvider._convert_to_wav`: parse the MIME parameters, build
the header for the data length, and prepend it to the raw sample bytes.
A negative parsed bit depth or rate always reaches `struct.pack` as a
negative `H`/`I` field (a negative bit depth makes `block_align`
negative, a negative rate is itself packed), so it raises
`struct.error`; nonnegative values proceed as naturals. -/
def convert_to_wav (audio_data : List ℕ) (mime_type : List Char) :
    Except String (List ℕ) := do
  let ps := parse_audio_mime_type mime_type
  if 0 ≤ ps.bits_per_sample ∧ 0 ≤ ps.rate then do
    let h ← wavHeader ps.bits_per_sample.toNat ps.rate.toNat audio_data.length
    Except.ok (h ++ audio_data)
  else Except.error ("struct.error")

/-! ## Provider registry and availability prober

From `voice_mcp/providers.py`: the static `PROVIDERS` catalog and
`is_provider_available`. -/

/-- One entry of the `PROVIDERS` registry dictionary. -/
structure ProviderInfo where
  id : String
  name : String
  ptype : String
  base_url : String
  is_local : Bool
  features : List String
  default_voice : Option String
  voices : List String
  models : List String
  default_model : Option String
deriving DecidableEq

/-- The Gemini voice catalog (listed twice in the source: in
`PROVIDERS["gemini"]["voices"]` and in `get_provider_by_voice`). -/
def geminiVoices : List String :=
  ["Aoede", "Callisto", "Charon", "Deimos", "Echo", "Europa",
   "Fenrir", "Ganymede", "Hera", "Io", "Kore", "Lunara",
   "Minerva", "Naia", "Nova", "Oberon", "Phobos", "Quorra",
   "Rhea", "Selene", "Titan", "Umbra", "Vega", "Whisper",
   "Xara", "Yuki", "Zephyr", "Astra", "Cypher", "Delta"]

/-- The `PROVIDERS` registry: kokoro and openai (TTS), whisper-local and
openai-whisper (STT), gemini (TTS). -/
def PROVIDERS : List (String × ProviderInfo) :=
  [("kokoro",
    { id := "kokoro", name := "Kokoro TTS", ptype := "tts",
      base_url := "http://localhost:8880/v1", is_local := true,
      features := ["local", "free", "fast"],
      default_voice := some "af_sky",
      voices := ["af_sky", "af_sarah", "am_adam", "af_nicole", "am_michael"],
      models := ["tts-1"], default_model := none }),
   ("openai",
    { id := "openai", name := "OpenAI TTS", ptype := "tts",
      base_url := "https://api.openai.com/v1", is_local := false,
      features := ["cloud", "emotions", "multi-model"],
      default_voice := some "alloy",
      voices := ["alloy", "nova", "echo", "fable", "onyx", "shimmer"],
      models := ["tts-1", "tts-1-hd", "gpt-4o-mini-tts"], default_model := none }),
   ("whisper-local",
    { id := "whisper-local", name := "Whisper.cpp", ptype := "stt",
      base_url := "http://localhost:2022/v1", is_local := true,
      features := ["local", "free", "accurate"],
      default_voice := none, voices := [],
      models := ["whisper-1"], default_model := none }),
   ("openai-whisper",
    { id := "openai-whisper", name := "OpenAI Whisper", ptype := "stt",
      base_url := "https://api.openai.com/v1", is_local := false,
      features := ["cloud", "fast", "reliable"],
      default_voice := none, voices := [],
      models := ["whisper-1"], default_model := none }),
   ("gemini",
    { id := "gemini", name := "Gemini AI Studio TTS", ptype := "tts",
      base_url := "https://generativelanguage.googleapis.com/v1beta",
      is_local := false,
      features := ["cloud", "multi-speaker", "emotions", "multi-language",
                   "custom-prompts"],
      default_voice := some "Zephyr",
      voices := geminiVoices,
      models := ["gemini-2.5-flash-preview-tts", "gemini-2.5-pro-preview-tts"],
      default_model := some "gemini-2.5-flash-preview-tts" })]

/-- `PROVIDERS.get(provider_id)`. -/
def providerLookup (provider_id : String) : Option ProviderInfo :=
  (PROVIDERS.lookup provider_id)

/-- The outcome of the three HTTP GET attempts made by the prober for one
call: `none` models a raised exception or timeout, `some s` a response
with HTTP status `s`.  The three fields are the `{base}/models`,
`{base}/health` and bare `{base}` requests, attempted in this order. -/
structure ProbeOutcome where
  modelsStatus : Option ℕ
  healthStatus : Option ℕ
  baseStatus : Option ℕ
deriving DecidableEq

/-- `is_provider_available`: unknown ids are unavailable; non-local
(hosted) providers are assumed available without probing; for local
providers the three attempts are made in order, the models and health
endpoints qualifying on status `== 200` exactly and the bare base URL on
any status `< 500`; every exception is swallowed and yields `False`. -/
def is_provider_available (provider_id : String) (o : ProbeOutcome) : Bool :=
  match providerLookup provider_id with
  | none => false
  | some p =>
    if !p.is_local then true
    else
      (match o.modelsStatus with
       | some s => s == 200
       | none => false) ||
      (match o.healthStatus with
       | some s => s == 200
       | none => false) ||
      (match o.baseStatus with
       | some s => decide (s < 500)
       | none => false)

/-- `get_provider_by_voice`: Kokoro voice prefixes, then the Gemini voice
catalog, else OpenAI. -/
def get_provider_by_voice (voice : String) : Option ProviderInfo :=
  if (("af_").isPrefixOf voice || ("am_").isPrefixOf voice ||
      ("bf_").isPrefixOf voice || ("bm_").isPrefixOf voice) then
    providerLookup ("kokoro")
  else if geminiVoices.contains voice then
    providerLookup ("gemini")
  else
    providerLookup ("openai")

/-! ## User settings record

From the `VoiceSettings` dataclass of `voice_mcp/settings.py`.  Note that
the dataclass has no `gemini_model` or `gemini_system_prompt` field even
though `get_tts_config` reads both attributes: those reads raise
`AttributeError`, modeled with `Except.error`. -/

/-- The `VoiceSettings` dataclass, with exactly its declared fields. -/
structure VoiceSettings where
  tts_provider : String
  tts_voice : String
  tts_model : String
  stt_provider : String
  stt_model : String
  silence_timeout : ℚ
  listen_duration : ℚ
  audio_feedback : String
  allow_emotions : Bool
  auto_start_kokoro : Bool
  prefer_local : Bool
  last_updated : String
deriving DecidableEq

/-- The dataclass field defaults of `VoiceSettings`. -/
def defaultVoiceSettings : VoiceSettings :=
  { tts_provider := "openai", tts_voice := "nova", tts_model := "tts-1",
    stt_provider := "openai", stt_model := "whisper-1",
    silence_timeout := 5/2, listen_duration := 180,
    audio_feedback := "chime", allow_emotions := false,
    auto_start_kokoro := false, prefer_local := true, last_updated := "" }

/-! ## Provider resolution

From `get_tts_config`, `get_stt_config` and `validate_emotion_request` in
`voice_mcp/tools/conversation.py`. -/

/-- The process environment/configuration consulted by the resolver.
`avail` is the oracle recording, per provider id, the verdict the
availability prober returns during this call; `hasKokoroClient` records
whether the `tts_kokoro` client exists in `openai_clients` (it is created
at import time iff `KOKORO_TTS_BASE_URL != TTS_BASE_URL`; the `tts_openai`
client is always created). -/
structure ResolverEnv where
  PREFER_LOCAL : Bool
  TTS_BASE_URL : String
  STT_BASE_URL : String
  TTS_MODEL : String
  TTS_VOICE : String
  STT_MODEL : String
  KOKORO_TTS_BASE_URL : String
  hasKokoroClient : Bool
  avail : String → Bool

/-- The configuration dictionary returned by `get_tts_config`. -/
structure TTSConfig where
  client_key : String
  base_url : String
  model : String
  voice : String
  instructions : Option String
  provider : String
deriving DecidableEq

/-- The configuration dictionary returned by `get_stt_config`. -/
structure STTConfig where
  client_key : String
  base_url : String
  model : String
  provider : String
deriving DecidableEq

/-- Python `x or default` on an optional string: `default` when `x` is
`None` or empty, else the string itself. -/
def orElseStr (x : Option String) (default : String) : String :=
  match x with
  | some s => if s = "" then default else s
  | none => default

/-- Python truthiness of an optional string. -/
def strTruthy (x : Option String) : Bool :=
  match x with
  | some s => s != ""
  | none => false

/-- The registry-lookup step of `get_tts_config` (its lines 198-203): an
id known to `PROVIDERS` resolves to its entry; an unknown id falls back
to the hard default `"openai"` (the final inner fallback is unreachable
since `"openai"` is in the registry; it mirrors the lookup's shape). -/
def tts_registry_resolve (provider : String) : String × ProviderInfo :=
  match providerLookup provider with
  | some info => (provider, info)
  | none =>
    match providerLookup ("openai") with
    | some info => (("openai" : String), info)
    | none =>
      (("openai" : String),
       { id := "openai", name := "", ptype := "tts", base_url := "",
         is_local := false, features := [], default_voice := none,
         voices := [], models := [], default_model := none })

/-- The provider-specific result dictionaries of `get_tts_config` (its
lines 205-237): the kokoro config never carries instructions; the gemini
and openai configs pass the (already gated) instructions through. -/
def tts_build_config (env : ResolverEnv) (p : String) (info : ProviderInfo)
    (voice model instructions : Option String) : TTSConfig :=
  if p == "kokoro" then
    { client_key := if env.hasKokoroClient then "tts_kokoro" else "tts",
      base_url := info.base_url,
      model := orElseStr model (info.models.getD 0 ""),
      voice := orElseStr voice (info.default_voice.getD ""),
      instructions := none,
      provider := "kokoro" }
  else if p == "gemini" then
    { client_key := "gemini",
      base_url := info.base_url,
      model := orElseStr model (info.default_model.getD ("gemini-2.5-flash-preview-tts")),
      voice := orElseStr voice (info.default_voice.getD ""),
      instructions := instructions,
      provider := "gemini" }
  else
    { client_key := "tts_openai",
      base_url := info.base_url,
      model := orElseStr model env.TTS_MODEL,
      voice := orElseStr voice (info.default_voice.getD env.TTS_VOICE),
      instructions := instructions,
      provider := "openai" }

/-- `get_tts_config(provider, voice, model, instructions)`.

Stage by stage, as in the source: (1) when any of provider/voice/model is
unset, load the saved settings and take the unset provider and voice from
them; with the loaded provider equal to `"gemini"`, an unset model or
unset instructions reads the nonexistent dataclass attributes
`gemini_model` / `gemini_system_prompt`, raising `AttributeError`;
(2) voice-based provider inference when the provider is still unset;
(3) the `PREFER_LOCAL` kokoro probe when the provider is still unset;
(4) the `TTS_BASE_URL` environment default; (5) the instructions gate,
dropping instructions unless the model is exactly `"gpt-4o-mini-tts"`;
(6) registry lookup with fallback to `"openai"` for unknown ids; and the
three provider-specific result dictionaries. -/
def get_tts_config (env : ResolverEnv) (st : VoiceSettings)
    (provider voice model instructions : Option String) :
    Except String TTSConfig := do
  -- (1) settings-backed defaults
  let loaded := provider.isNone || voice.isNone || model.isNone
  let provider := if loaded && provider.isNone then some st.tts_provider else provider
  let voice := if loaded && voice.isNone then some st.tts_voice else voice
  let _ ← (if loaded && model.isNone && (provider == some ("gemini"))
           then Except.error ("AttributeError: gemini_model")
           else Except.ok () : Except String Unit)
  let _ ← (if loaded && instructions.isNone && (provider == some ("gemini"))
           then Except.error ("AttributeError: gemini_system_prompt")
           else Except.ok () : Except String Unit)
  -- (2) voice-based inference
  let provider :=
    if provider.isNone && strTruthy voice then
      match voice with
      | some v =>
        match get_provider_by_voice v with
        | some info => some info.id
        | none => provider
      | none => provider
    else provider
  -- (3) prefer-local kokoro probe
  let provider :=
    if provider.isNone && env.PREFER_LOCAL then
      some (if env.avail ("kokoro") then "kokoro" else "openai")
    else provider
  -- (4) environment default
  let provider :=
    if provider.isNone then
      some (if env.TTS_BASE_URL != "" &&
               !containsSub (("openai.com").toList) env.TTS_BASE_URL.toList then
              (if containsSub (("generativelanguage.googleapis.com").toList)
                  env.TTS_BASE_URL.toList then "gemini" else "kokoro")
            else "openai")
    else provider
  -- (5) instructions gate: `model not in ["gpt-4o-mini-tts"]`
  let instructions :=
    if strTruthy instructions && !(model == some ("gpt-4o-mini-tts")) then none
    else instructions
  -- (6) registry lookup with fallback
  Except.ok (tts_build_config env (tts_registry_resolve (provider.getD "")).1
    (tts_registry_resolve (provider.getD "")).2 voice model instructions)

/-- `get_stt_config(provider)`: the prefer-local whisper probe, the
`STT_BASE_URL` environment default, registry lookup with fallback to
`"openai-whisper"`. -/
def get_stt_config (env : ResolverEnv) (provider : Option String) : STTConfig :=
  let provider :=
    if provider.isNone && env.PREFER_LOCAL then
      some (if env.avail ("whisper-local") then "whisper-local" else "openai-whisper")
    else provider
  let provider :=
    if provider.isNone then
      some (if env.STT_BASE_URL != "" &&
               !containsSub (("openai.com").toList) env.STT_BASE_URL.toList then
              "whisper-local"
            else "openai-whisper")
    else provider
  let p := provider.getD ""
  let (p, info) :=
    match providerLookup p with
    | some info => (p, info)
    | none =>
      match providerLookup ("openai-whisper") with
      | some info => (("openai-whisper" : String), info)
      | none => (("openai-whisper" : String),
                 { id := "openai-whisper", name := "", ptype := "stt",
                   base_url := env.STT_BASE_URL, is_local := false,
                   features := [], default_voice := none, voices := [],
                   models := [], default_model := none })
  { client_key := "stt", base_url := info.base_url,
    model := env.STT_MODEL, provider := p }

/-- `validate_emotion_request(tts_model, tts_instructions, tts_provider)`:
returns the instructions to use together with a flag recording whether the
provider-switch note ("Switching to OpenAI for emotional speech support")
was logged.  Instructions pass through unless they target the
emotion-capable model while `ALLOW_EMOTIONS` is off, in which case they
are stripped. -/
def validate_emotion_request (ALLOW_EMOTIONS : Bool)
    (tts_model tts_instructions tts_provider : Option String) :
    Option String × Bool :=
  if !strTruthy tts_instructions then (tts_instructions, false)
  else if tts_model == some ("gpt-4o-mini-tts") then
    if !ALLOW_EMOTIONS then (none, false)
    else (tts_instructions, !(tts_provider == some ("openai")))
  else (tts_instructions, false)

/-! ## Audio capture with silence endpointing

From `record_audio` in `voice_mcp/tools/conversation.py`.  The capture
loop reads 100 ms chunks (`chunk_size = int(SAMPLE_RATE * 0.1)` samples),
appends each, and stops either when the loop guard
`total_recorded < duration * SAMPLE_RATE` fails or when the wall-clock
silence timer reaches `silence_duration = 2.5` seconds against the RMS
threshold `100`.

The microphone is modeled by the list of per-chunk RMS values, and the
wall clock by the frame index: under real-time device-paced reads the
time observed after the `n`-th chunk is `n * (chunk_size / SAMPLE_RATE)`
seconds, so the timestamp stored in `silence_start` is represented by the
frame count at that moment.  The one-frame granularity this introduces is
exactly the "within one frame interval" tolerance of the specification. -/

/-- The `silence_start` update for one chunk: at or above the threshold
the timer is reset to `None`; below it the timer starts if unset and is
kept otherwise (`n'` is the frame count after reading the chunk). -/
def nextSilence (n' : ℕ) (ss : Option ℕ) (rms : ℚ) : Option ℕ :=
  if rms < 100 then
    match ss with
    | none => some n'
    | some k => some k
  else none

/-- The loop-break test for one chunk: a below-threshold chunk with a
running timer breaks when `current_time - silence_start`, i.e.
`(n' - k) * chunk_size / SAMPLE_RATE` seconds, reaches `2.5`. -/
def silenceBreak (sr csize n' : ℕ) (ss : Option ℕ) (rms : ℚ) : Bool :=
  if rms < 100 then
    match ss with
    | none => false
    | some k => decide ((5 : ℚ)/2 ≤ (((n' - k : ℕ) : ℚ) * csize) / sr)
  else false

/-- The recording loop of `record_audio`: while
`total_recorded < duration * SAMPLE_RATE`, read a chunk, then either
break on the silence test or continue with the updated timer.  Returns
the number of chunks captured; the captured buffer is their
concatenation. -/
def recordAux (sr csize : ℕ) (dur : ℚ) : List ℚ → ℕ → Option ℕ → ℕ
  | [], n, _ => n
  | rms :: rest, n, ss =>
    if ((n * csize : ℕ) : ℚ) < dur * sr then
      let n' := n + 1
      if silenceBreak sr csize n' ss rms then n'
      else recordAux sr csize dur rest n' (nextSilence n' ss rms)
    else n

/-- `record_audio(duration)` observed through the chunk count: starts with
an empty buffer and no silence timer, `chunk_size = int(SAMPLE_RATE * 0.1)`. -/
def record_audio_frames (sr : ℕ) (dur : ℚ) (rmsStream : List ℚ) : ℕ :=
  recordAux sr (sr / 10) dur rmsStream 0 none

/-- Modelled from the spec: the endpointing stopping rule stated in §3
(CaptureSession invariant) and §4.4 — stop the capture at the first
moment the continuous silence span reaches the configured threshold of
2.5 s, or at the first moment the captured duration reaches the ceiling,
whichever comes first.  `run` counts the consecutive below-threshold
chunks of the current silent stretch, so `(run - 1) * csize / sr` seconds
of continuous silence have elapsed since silence was first observed. -/
def captureSpecAux (sr csize : ℕ) (dur : ℚ) : List ℚ → ℕ → ℕ → ℕ
  | [], n, _ => n
  | rms :: rest, n, run =>
    if ((n * csize : ℕ) : ℚ) < dur * sr then
      let n' := n + 1
      let run' := if rms < 100 then run + 1 else 0
      if (5 : ℚ)/2 ≤ (((run' - 1 : ℕ) : ℚ) * csize) / sr then n'
      else captureSpecAux sr csize dur rest n' run'
    else n

/-- Modelled from the spec: entry point of the reference stopping rule. -/
def captureSpecFrames (sr : ℕ) (dur : ℚ) (rmsStream : List ℚ) : ℕ :=
  captureSpecAux sr (sr / 10) dur rmsStream 0 0

/-! ## Speech-to-text and the local conversation turn

From `speech_to_text` and the `transport == "local"` arm of `converse` in
`voice_mcp/tools/conversation.py`.  Network and device effects are an
explicit input record; the best-effort audio feedback calls swallow their
own errors and do not affect the control flow, so they have no
observable component here. -/

/-- `speech_to_text` observed through its result: the transcription API
response (`none` models an API exception) is stripped; empty text yields
`None` ("no speech"). -/
def speech_to_text_result (raw : Option (List Char)) : Option (List Char) :=
  match raw with
  | none => none
  | some s => if pyStrip s = [] then none else some (pyStrip s)

/-- The terminal payload of one local conversation turn. -/
inductive TurnResult where
  | voiceResponse (text : List Char)
  | noSpeech
  | errCouldNotSpeak
  | errCouldNotRecord
deriving DecidableEq

/-- The effect oracle for one local turn: the TTS outcome and its
generation/playback sub-metrics, the elapsed phase durations, the number
of captured samples, and the raw STT transcript. -/
structure TurnInput where
  ttsSuccess : Bool
  ttsMetrics : Option (ℚ × ℚ)
  ttsTotal : ℚ
  recordDur : ℚ
  sttDur : ℚ
  audioLen : ℕ
  sttRaw : Option (List Char)

/-- The `transport == "local"` arm of `converse` with
`wait_for_response=True`: accumulate `tts_gen`/`tts_play` when metrics
exist and `tts_total` always; fail the turn on TTS failure; record and
time the capture; fail on an empty buffer; time the transcription; and
finish with the recognized text or the "No speech detected" payload,
paired with the accumulated phase timings. -/
def converse_local (inp : TurnInput) : TurnResult × List (String × ℚ) :=
  let t0 : List (String × ℚ) :=
    match inp.ttsMetrics with
    | some m => [("tts_gen", m.1), ("tts_play", m.2)]
    | none => []
  let t1 := t0 ++ [("tts_total", inp.ttsTotal)]
  if !inp.ttsSuccess then (TurnResult.errCouldNotSpeak, t1)
  else
    let t2 := t1 ++ [("record", inp.recordDur)]
    if inp.audioLen = 0 then (TurnResult.errCouldNotRecord, t2)
    else
      let t3 := t2 ++ [("stt", inp.sttDur)]
      match speech_to_text_result inp.sttRaw with
      | some t => (TurnResult.voiceResponse t, t3)
      | none => (TurnResult.noSpeech, t3)

/-! ## Settings manager state machine

From `VoiceSettingsManager` in `voice_mcp/settings.py`.  The manager
state is the in-process cache (`self._settings`), the persisted file
(absent or one valid settings record) and the applied environment
variables.  `save_settings` stamps `last_updated` with the current time,
passed in as `now`. -/

/-- The environment variables written by `apply_to_environment`
(`none` = unset); duration and boolean settings are stored stringified by
the source and modeled here at value level. -/
structure EnvVars where
  TTS_BASE_URL : Option String
  TTS_VOICE : Option String
  TTS_MODEL : Option String
  STT_BASE_URL : Option String
  STT_MODEL : Option String
  VOICE_MCP_SILENCE_TIMEOUT : Option ℚ
  VOICE_MCP_AUDIO_FEEDBACK : Option String
  VOICE_ALLOW_EMOTIONS : Option Bool
  VOICE_MCP_AUTO_START_KOKORO : Option Bool
  VOICE_MCP_PREFER_LOCAL : Option Bool
deriving DecidableEq

/-- `apply_to_environment`: provider-dependent base-URL and voice
variables, then the unconditional model, timeout, feedback and flag
variables.  A provider string other than the two recognized ones leaves
the corresponding URL and voice variables untouched. -/
def apply_to_environment (s : VoiceSettings) (e : EnvVars) : EnvVars :=
  let e :=
    if s.tts_provider == "kokoro" then
      { e with TTS_BASE_URL := some "http://localhost:8880/v1",
               TTS_VOICE := some s.tts_voice }
    else if s.tts_provider == "openai" then
      { e with TTS_BASE_URL := none, TTS_VOICE := some s.tts_voice }
    else e
  let e := { e with TTS_MODEL := some s.tts_model }
  let e :=
    if s.stt_provider == "local" then
      { e with STT_BASE_URL := some "http://localhost:2022/v1" }
    else if s.stt_provider == "openai" then
      { e with STT_BASE_URL := none }
    else e
  { e with STT_MODEL := some s.stt_model,
           VOICE_MCP_SILENCE_TIMEOUT := some s.silence_timeout,
           VOICE_MCP_AUDIO_FEEDBACK := some s.audio_feedback,
           VOICE_ALLOW_EMOTIONS := some s.allow_emotions,
           VOICE_MCP_AUTO_START_KOKORO := some s.auto_start_kokoro,
           VOICE_MCP_PREFER_LOCAL := some s.prefer_local }

/-- The state owned by `VoiceSettingsManager`. -/
structure ManagerState where
  cache : Option VoiceSettings
  file : Option VoiceSettings
  env : EnvVars
deriving DecidableEq

/-- `load_settings`: return the cache when populated; otherwise, with no
file on disk, create the defaults and persist them through
`save_settings` (which stamps `last_updated := now`); with a file
present, load it into the cache. -/
def load_settings (now : String) (st : ManagerState) :
    VoiceSettings × ManagerState :=
  match st.cache with
  | some s => (s, st)
  | none =>
    match st.file with
    | none =>
      let s := { defaultVoiceSettings with last_updated := now }
      (s, { st with cache := some s, file := some s })
    | some f => (f, { st with cache := some f })

/-- `save_settings`: no-op without a cached record; otherwise stamp
`last_updated := now` on the cached record and write it to the file. -/
def save_settings (now : String) (st : ManagerState) : ManagerState :=
  match st.cache with
  | none => st
  | some s =>
    let s2 := { s with last_updated := now }
    { st with cache := some s2, file := some s2 }

/-- One `update_setting(key, value)` request.  `hasattr(settings, key)`
holds not only for the twelve dataclass fields but also for non-field
class attributes (methods and dunders such as `__repr__` or `__doc__`),
so the constructor carries the `hasattr` verdict for its key:
`unknownKey k` is a key with `hasattr(settings, k)` false (no field and
no class attribute of that name); `nonFieldAttr k` is a key with
`hasattr(settings, k)` true that is not a dataclass field and whose
`setattr` succeeds by shadowing the class attribute on the instance
(e.g. `"__repr__"`, `"__doc__"`; keys such as `"__class__"` whose
`setattr` itself raises are outside this model); the remaining
constructors are typed assignments to the twelve fields. -/
inductive SettingUpdate where
  | unknownKey (key : String)
  | nonFieldAttr (key : String)
  | set_tts_provider (v : String)
  | set_tts_voice (v : String)
  | set_tts_model (v : String)
  | set_stt_provider (v : String)
  | set_stt_model (v : String)
  | set_silence_timeout (v : ℚ)
  | set_listen_duration (v : ℚ)
  | set_audio_feedback (v : String)
  | set_allow_emotions (v : Bool)
  | set_auto_start_kokoro (v : Bool)
  | set_prefer_local (v : Bool)
  | set_last_updated (v : String)

/-- The key string carried by an update request. -/
def SettingUpdate.key : SettingUpdate → String
  | .unknownKey k => k
  | .nonFieldAttr k => k
  | .set_tts_provider _ => "tts_provider"
  | .set_tts_voice _ => "tts_voice"
  | .set_tts_model _ => "tts_model"
  | .set_stt_provider _ => "stt_provider"
  | .set_stt_model _ => "stt_model"
  | .set_silence_timeout _ => "silence_timeout"
  | .set_listen_duration _ => "listen_duration"
  | .set_audio_feedback _ => "audio_feedback"
  | .set_allow_emotions _ => "allow_emotions"
  | .set_auto_start_kokoro _ => "auto_start_kokoro"
  | .set_prefer_local _ => "prefer_local"
  | .set_last_updated _ => "last_updated"

/-- The field names of the `VoiceSettings` dataclass: the keys that
`dataclasses.asdict` serializes and `apply_to_environment` reads.
`hasattr(settings, key)` holds for these keys, and also for non-field
class attributes (see `SettingUpdate`). -/
def settingsFieldNames : List String :=
  ["tts_provider", "tts_voice", "tts_model", "stt_provider", "stt_model",
   "silence_timeout", "listen_duration", "audio_feedback", "allow_emotions",
   "auto_start_kokoro", "prefer_local", "last_updated"]

/-- The effect of `setattr(settings, key, value)` on the dataclass
fields.  An `unknownKey` request never reaches `setattr` (the `hasattr`
guard filters it out).  A `nonFieldAttr` request shadows a class
attribute on the instance: every dataclass field — all that `asdict`
persists and `apply_to_environment` reads — is untouched, and the shadow
attribute itself lies outside this field-level record. -/
def SettingUpdate.apply : SettingUpdate → VoiceSettings → VoiceSettings
  | .unknownKey _, s => s
  | .nonFieldAttr _, s => s
  | .set_tts_provider v, s => { s with tts_provider := v }
  | .set_tts_voice v, s => { s with tts_voice := v }
  | .set_tts_model v, s => { s with tts_model := v }
  | .set_stt_provider v, s => { s with stt_provider := v }
  | .set_stt_model v, s => { s with stt_model := v }
  | .set_silence_timeout v, s => { s with silence_timeout := v }
  | .set_listen_duration v, s => { s with listen_duration := v }
  | .set_audio_feedback v, s => { s with audio_feedback := v }
  | .set_allow_emotions v, s => { s with allow_emotions := v }
  | .set_auto_start_kokoro v, s => { s with auto_start_kokoro := v }
  | .set_prefer_local v, s => { s with prefer_local := v }
  | .set_last_updated v, s => { s with last_updated := v }

/-- Does `hasattr(settings, key)` hold for this request's key?  By the
constructor semantics of `SettingUpdate`, it fails exactly for
`unknownKey` requests. -/
def SettingUpdate.hasattrHolds : SettingUpdate → Bool
  | .unknownKey _ => false
  | _ => true

/-- `update_setting(key, value)`: load the settings, return `False` when
`hasattr(settings, key)` fails, otherwise set the attribute, persist via
`save_settings`, re-apply to the environment, and return `True`. -/
def update_setting (now : String) (u : SettingUpdate) (st : ManagerState) :
    Bool × ManagerState :=
  let (s, st1) := load_settings now st
  if !u.hasattrHolds then (false, st1)
  else
    let s2 := u.apply s
    let st2 := { st1 with cache := some s2 }
    let st3 := save_settings now st2
    let st4 :=
      match st3.cache with
      | some s3 => { st3 with env := apply_to_environment s3 st3.env }
      | none => st3
    (true, st4)
section C5

/-- C5: For every raw-sample length and every in-range combination of
sample rate and bit depth, the header synthesizer succeeds and the
produced 44-byte header carries `36 + dataSize` in its RIFF ChunkSize
field (bytes 4..7, little endian) and `dataSize` in its data sub-chunk
size field (bytes 40..43, little endian). -/
theorem C5_wav_header_size_fields (bits rate ds : ℕ)
    (hds : 36 + ds < 4294967296) (hbits : bits < 65536)
    (hrate : rate < 4294967296) (hbr : rate * (bits / 8) < 4294967296)
    (hba : bits / 8 < 65536) :
    ∃ h, wavHeader bits rate ds = Except.ok h ∧ h.length = 44 ∧
      (h.drop 4).take 4 = le32 (36 + ds) ∧ (h.drop 40).take 4 = le32 ds := by
  refine ⟨tag4 ("RIFF") ++ le32 (36 + ds) ++ tag4 ("WAVE") ++ tag4 ("fmt ") ++
    le32 16 ++ le16 1 ++ le16 1 ++ le32 rate ++ le32 (rate * (bits / 8)) ++
    le16 (bits / 8) ++ le16 bits ++ tag4 ("data") ++ le32 ds, ?_, ?_, ?_, ?_⟩
  · simp only [wavHeader, packU32, packU16, bind, Except.bind, one_mul]
    rw [if_pos hds, if_pos hrate, if_pos hbr, if_pos hba, if_pos hbits,
      if_pos (show ds < 4294967296 by omega)]
    norm_num
  · simp [tag4, le32, le16]
  · simp [tag4, le32, le16, List.drop, List.take]
  · simp [tag4, le32, le16, List.drop, List.take]

/-- Witness for C5 at 16 bits, 24000 Hz, 7 data bytes. -/
theorem C5_wav_header_size_fields_witness :
    ∃ h, wavHeader 16 24000 7 = Except.ok h ∧ h.length = 44 ∧
      (h.drop 4).take 4 = le32 (36 + 7) ∧ (h.drop 40).take 4 = le32 7 :=
  C5_wav_header_size_fields 16 24000 7 (by norm_num) (by norm_num)
    (by norm_num) (by norm_num) (by norm_num)

end C5
section C7

end C7
section C3

/-- Counterexample for C3 as stated: for the local backend kokoro, a
models-list response with status 204 — a 2xx status — does not make the
probe return true; with the health attempt also answering 204 and the
bare-endpoint attempt failing, the probe returns false, while the claim
("true on the first response whose status is 2xx") requires true. -/
theorem C3_counterexample_status_204 :
    (providerLookup ("kokoro")).any (fun p => p.is_local) = true ∧
    200 ≤ 204 ∧ 204 < 300 ∧
    is_provider_available ("kokoro")
      { modelsStatus := some 204, healthStatus := some 204, baseStatus := none } =
      false := by
  decide

/-- C3 amended: for every backend descriptor marked local, the probe
attempts the models-list, health, and bare base-endpoint requests in
order, each bounded by the timeout (outcomes per attempt are the probe
oracle), and returns true on the first response qualifying for its
attempt — status exactly 200 for the models and health requests, any
status below 500 for the bare endpoint; it returns false, without
raising, when all three attempts fail, time out, or return
non-qualifying statuses. -/
theorem C3_local_probe_attempt_order (pid : String) (p : ProviderInfo)
    (o : ProbeOutcome) (hp : providerLookup pid = some p)
    (hl : p.is_local = true) :
    (o.modelsStatus = some 200 → is_provider_available pid o = true) ∧
    ((∀ s, o.modelsStatus = some s → s ≠ 200) → o.healthStatus = some 200 →
      is_provider_available pid o = true) ∧
    ((∀ s, o.modelsStatus = some s → s ≠ 200) →
     (∀ s, o.healthStatus = some s → s ≠ 200) →
     ∀ s, o.baseStatus = some s → s < 500 →
      is_provider_available pid o = true) ∧
    ((∀ s, o.modelsStatus = some s → s ≠ 200) →
     (∀ s, o.healthStatus = some s → s ≠ 200) →
     (∀ s, o.baseStatus = some s → 500 ≤ s) →
      is_provider_available pid o = false) := by
  unfold is_provider_available
  rw [hp]
  obtain ⟨ms, hs, bs⟩ := o
  simp only [hl, Bool.not_true, Bool.false_eq_true, if_false]
  refine ⟨?_, ?_, ?_, ?_⟩
  · intro hm
    subst hm
    simp
  · intro hm hh
    subst hh
    cases ms with
    | none => simp
    | some s => simp [hm s rfl]
  · intro hm hh s hb hlt
    subst hb
    cases ms with
    | none =>
      cases hs with
      | none => simp [hlt]
      | some s2 => simp [hlt, hh s2 rfl]
    | some s1 =>
      cases hs with
      | none => simp [hlt, hm s1 rfl]
      | some s2 => simp [hlt, hm s1 rfl, hh s2 rfl]
  · intro hm hh hb
    cases ms with
    | none =>
      cases hs with
      | none =>
        cases bs with
        | none => simp
        | some s3 => simp [Nat.not_lt_of_le (hb s3 rfl)]
      | some s2 =>
        cases bs with
        | none => simp [hh s2 rfl]
        | some s3 => simp [hh s2 rfl, Nat.not_lt_of_le (hb s3 rfl)]
    | some s1 =>
      cases hs with
      | none =>
        cases bs with
        | none => simp [hm s1 rfl]
        | some s3 => simp [hm s1 rfl, Nat.not_lt_of_le (hb s3 rfl)]
      | some s2 =>
        cases bs with
        | none => simp [hm s1 rfl, hh s2 rfl]
        | some s3 => simp [hm s1 rfl, hh s2 rfl, Nat.not_lt_of_le (hb s3 rfl)]

/-- Witness for C3's amended theorem at the kokoro descriptor with a
failed models attempt, a 200 health response, and no base attempt. -/
theorem C3_local_probe_attempt_order_witness :
    is_provider_available ("kokoro")
      { modelsStatus := some 404, healthStatus := some 200, baseStatus := none } =
      true := by
  have h := C3_local_probe_attempt_order ("kokoro")
    ((PROVIDERS.lookup ("kokoro")).getD
      { id := "", name := "", ptype := "", base_url := "", is_local := true,
        features := [], default_voice := none, voices := [], models := [],
        default_model := none })
    { modelsStatus := some 404, healthStatus := some 200, baseStatus := none }
    (by decide) (by decide)
  exact h.2.1 (by intro s hs; cases hs; decide) rfl

end C3
section DigitLemmas

theorem natDigits_shape (n : ℕ) : ∀ c ∈ natDigits n, ∃ d, d < 10 ∧ c = digitChar d := by
  induction n using Nat.strong_induction_on with
  | _ n ih =>
    rw [natDigits]
    by_cases h : n < 10
    · simp only [dif_pos h, List.mem_singleton]
      intro c hc
      exact ⟨n, h, hc⟩
    · simp only [dif_neg h, List.mem_append, List.mem_singleton]
      intro c hc
      rcases hc with hc | hc
      · exact ih (n / 10) (Nat.div_lt_self (by omega) (by omega)) c hc
      · exact ⟨n % 10, Nat.mod_lt n (by omega), hc⟩

theorem natDigits_ne_nil (n : ℕ) : natDigits n ≠ [] := by
  rw [natDigits]
  by_cases h : n < 10
  · simp [dif_pos h]
  · simp [dif_neg h]

theorem digitChar_isDigit : ∀ d, d < 10 → (digitChar d).isDigit = true := by
  decide

theorem digitChar_props : ∀ d, d < 10 →
    digitChar d ≠ ';' ∧ digitChar d ≠ '=' ∧ digitChar d ≠ 'L' ∧
    (digitChar d).isWhitespace = false ∧ (digitChar d).toLower = digitChar d ∧
    (digitChar d).toNat - 48 = d := by
  decide

theorem natDigits_foldl (n : ℕ) : ∀ a : ℕ,
    (natDigits n).foldl (fun a c => a * 10 + (c.toNat - 48)) a =
      a * 10 ^ (natDigits n).length + n := by
  induction n using Nat.strong_induction_on with
  | _ n ih =>
    intro a
    rw [natDigits]
    by_cases h : n < 10
    · simp only [dif_pos h, List.foldl_cons, List.foldl_nil, List.length_singleton]
      rw [(digitChar_props n h).2.2.2.2.2]
      ring
    · have hd : n / 10 < n := Nat.div_lt_self (by omega) (by omega)
      simp only [dif_neg h, List.foldl_append, List.foldl_cons, List.foldl_nil,
        List.length_append, List.length_singleton]
      rw [ih (n / 10) hd a, (digitChar_props (n % 10) (Nat.mod_lt n (by omega))).2.2.2.2.2]
      have hmod := Nat.div_add_mod n 10
      rw [pow_succ]
      ring_nf
      omega

end DigitLemmas
section StringLemmas

theorem isPrefixOf_append_self (l t : List Char) :
    List.isPrefixOf l (l ++ t) = true := by
  induction l with
  | nil => simp [List.isPrefixOf]
  | cons a as ih => simp [List.isPrefixOf, ih]

theorem pySplit_no_sep (sep : Char) (l : List Char) (h : sep ∉ l) :
    pySplit sep l = [l] := by
  induction l with
  | nil => rfl
  | cons c cs ih =>
    have hc : c ≠ sep := fun hc => h (hc ▸ List.mem_cons_self c cs)
    have hcs : sep ∉ cs := fun hm => h (List.mem_cons_of_mem c hm)
    simp only [pySplit, if_neg (fun hcc => hc hcc), ih hcs]

theorem pySplit_append (sep : Char) (a b : List Char) (h : sep ∉ a) :
    pySplit sep (a ++ sep :: b) = a :: pySplit sep b := by
  induction a with
  | nil => simp [pySplit]
  | cons c cs ih =>
    have hc : c ≠ sep := fun hc => h (hc ▸ List.mem_cons_self c cs)
    have hcs : sep ∉ cs := fun hm => h (List.mem_cons_of_mem c hm)
    simp only [List.cons_append, pySplit, if_neg (fun hcc => hc hcc),
      List.append_eq, ih hcs]

theorem pySplitOnce_append (sep : Char) (a b : List Char) (h : sep ∉ a) :
    pySplitOnce sep (a ++ sep :: b) = some b := by
  induction a with
  | nil => simp [pySplitOnce]
  | cons c cs ih =>
    have hc : c ≠ sep := fun hc => h (hc ▸ List.mem_cons_self c cs)
    have hcs : sep ∉ cs := fun hm => h (List.mem_cons_of_mem c hm)
    simp only [List.cons_append, pySplitOnce, if_neg (fun hcc => hc hcc),
      List.append_eq, ih hcs]

theorem dropWhile_eq_self_of (p : Char → Bool) (l : List Char)
    (h : ∀ c ∈ l, p c = false) : l.dropWhile p = l := by
  cases l with
  | nil => rfl
  | cons c cs =>
    rw [List.dropWhile_cons, if_neg]
    simp [h c (List.mem_cons_self c cs)]

theorem pyStrip_no_ws (l : List Char) (h : ∀ c ∈ l, c.isWhitespace = false) :
    pyStrip l = l := by
  unfold pyStrip
  rw [dropWhile_eq_self_of _ _ h,
    dropWhile_eq_self_of _ _ (fun c hc => h c (List.mem_reverse.mp hc)),
    List.reverse_reverse]

end StringLemmas
section C6

theorem map_self_of (f : Char → Char) (l : List Char)
    (h : ∀ c ∈ l, f c = c) : l.map f = l := by
  induction l with
  | nil => rfl
  | cons c cs ih =>
    simp [h c (List.mem_cons_self c cs),
      ih (fun x hx => h x (List.mem_cons_of_mem c hx))]

theorem natDigits_lower (n : ℕ) : pyLower (natDigits n) = natDigits n := by
  unfold pyLower
  apply map_self_of
  intro c hc
  obtain ⟨d, hd, rfl⟩ := natDigits_shape n c hc
  exact (digitChar_props d hd).2.2.2.2.1

theorem natDigits_not_semi (n : ℕ) : ';' ∉ natDigits n := by
  intro hm
  obtain ⟨d, hd, he⟩ := natDigits_shape n _ hm
  exact (digitChar_props d hd).1 he.symm

theorem natDigits_no_ws (n : ℕ) : ∀ c ∈ natDigits n, c.isWhitespace = false := by
  intro c hc
  obtain ⟨d, hd, rfl⟩ := natDigits_shape n c hc
  exact (digitChar_props d hd).2.2.2.1

theorem digitChar_not_special : ∀ d, d < 10 →
    digitChar d ≠ '+' ∧ digitChar d ≠ '-' ∧ digitChar d ≠ '_' := by
  decide

theorem udTail_digits (s : List Char) (h : ∀ c ∈ s, c.isDigit = true) :
    udTail s = true := by
  induction s with
  | nil => rfl
  | cons c t ih =>
    unfold udTail
    rw [if_pos (h c (List.mem_cons_self c t))]
    exact ih (fun x hx => h x (List.mem_cons_of_mem c hx))

theorem pyIntSigned_digits (s : List Char) (hne : s ≠ [])
    (h : ∀ c ∈ s, ∃ d, d < 10 ∧ c = digitChar d) :
    pyIntSigned s =
      some (((s.foldl (fun a c => a * 10 + (c.toNat - 48)) 0 : ℕ) : ℤ)) := by
  cases s with
  | nil => cases hne rfl
  | cons c t =>
    obtain ⟨d, hd, rfl⟩ := h c (List.mem_cons_self c t)
    have hds : ∀ x ∈ digitChar d :: t, x.isDigit = true := by
      intro x hx
      obtain ⟨e, he, rfl⟩ := h x hx
      exact digitChar_isDigit e he
    have hud : underscoreDigits (digitChar d :: t) = true := by
      simp only [underscoreDigits]
      rw [digitChar_isDigit d hd,
        udTail_digits t (fun x hx => hds x (List.mem_cons_of_mem _ hx))]
      rfl
    have hfil : (digitChar d :: t).filter (fun c => c != '_') =
        digitChar d :: t := by
      rw [List.filter_eq_self]
      intro x hx
      obtain ⟨e, he, rfl⟩ := h x hx
      simpa using (digitChar_not_special e he).2.2
    simp only [pyIntSigned]
    rw [if_neg (digitChar_not_special d hd).1,
      if_neg (digitChar_not_special d hd).2.1, if_pos hud]
    unfold udVal
    rw [hfil]

theorem pyInt_natDigits (n : ℕ) : pyInt (natDigits n) = some ((n : ℕ) : ℤ) := by
  unfold pyInt
  rw [pyStrip_no_ws _ (natDigits_no_ws n),
    pyIntSigned_digits _ (natDigits_ne_nil n) (natDigits_shape n),
    natDigits_foldl n 0]
  simp

theorem parseParam_format_bits (acc : MimeParams) (bits : ℕ) :
    parseParam acc (("audio/L").toList ++ natDigits bits) =
      { acc with bits_per_sample := bits } := by
  have hstrip : pyStrip (("audio/L").toList ++ natDigits bits) =
      ("audio/L").toList ++ natDigits bits := by
    apply pyStrip_no_ws
    intro c hc
    rcases List.mem_append.mp hc with hm | hm
    · exact (by decide : ∀ c ∈ ("audio/L").toList, c.isWhitespace = false) c hm
    · exact natDigits_no_ws bits c hm
  have hnotrate : isRateParam (("audio/L").toList ++ natDigits bits) = false := by
    unfold isRateParam pyLower
    rw [List.map_append]
    have h1 : (("audio/L").toList).map Char.toLower = ("audio/l").toList := by decide
    rw [h1, show (("audio/l").toList = 'a' :: ("udio/l").toList) from rfl,
      show (("rate=").toList = 'r' :: ("ate=").toList) from rfl]
    simp [List.isPrefixOf]
  have hbp : isBitsParam (("audio/L").toList ++ natDigits bits) = true := by
    unfold isBitsParam
    exact isPrefixOf_append_self _ _
  have hbv : bitsVal (("audio/L").toList ++ natDigits bits) = some bits := by
    unfold bitsVal
    rw [show ((("audio/L").toList ++ natDigits bits) =
        ("audio/").toList ++ 'L' :: natDigits bits) from rfl,
      pySplitOnce_append _ _ _ (by decide)]
    exact pyInt_natDigits bits
  unfold parseParam
  rw [hstrip, hnotrate, hbp, hbv]
  simp

theorem parseParam_format_rate (acc : MimeParams) (rate : ℕ) :
    parseParam acc (("rate=").toList ++ natDigits rate) =
      { acc with rate := rate } := by
  have hstrip : pyStrip (("rate=").toList ++ natDigits rate) =
      ("rate=").toList ++ natDigits rate := by
    apply pyStrip_no_ws
    intro c hc
    rcases List.mem_append.mp hc with hm | hm
    · exact (by decide : ∀ c ∈ ("rate=").toList, c.isWhitespace = false) c hm
    · exact natDigits_no_ws rate c hm
  have hrp : isRateParam (("rate=").toList ++ natDigits rate) = true := by
    unfold isRateParam pyLower
    rw [List.map_append]
    have h1 : (("rate=").toList).map Char.toLower = ("rate=").toList := by decide
    rw [h1, ← pyLower, natDigits_lower]
    exact isPrefixOf_append_self _ _
  have hrv : rateVal (("rate=").toList ++ natDigits rate) = some rate := by
    unfold rateVal
    rw [show ((("rate=").toList ++ natDigits rate) =
        ("rate").toList ++ '=' :: natDigits rate) from rfl,
      pySplitOnce_append _ _ _ (by decide)]
    exact pyInt_natDigits rate
  unfold parseParam
  rw [hstrip, hrp, hrv]
  simp

/-- C6: round-trip of the MIME-style audio descriptor — for every rate > 0
and every bit depth in {8, 16, 24, 32}, parsing the formatted string
`audio/L<bits>;rate=<rate>` recovers exactly the original rate and
bits-per-sample values. -/
theorem C6_mime_roundtrip (rate bits : ℕ) (hr : 0 < rate)
    (hb : bits = 8 ∨ bits = 16 ∨ bits = 24 ∨ bits = 32) :
    parse_audio_mime_type (formatMime rate bits) =
      { bits_per_sample := bits, rate := rate } := by
  clear hr hb
  have hfmt : formatMime rate bits =
      (("audio/L").toList ++ natDigits bits) ++
        ';' :: ((("rate=").toList) ++ natDigits rate) := by
    rw [formatMime, show ((";rate=").toList = ';' :: ("rate=").toList) from rfl]
    simp [List.append_assoc]
  have hA : ';' ∉ ("audio/L").toList ++ natDigits bits := by
    intro hm
    rcases List.mem_append.mp hm with hm | hm
    · exact (by decide : ¬ (';' ∈ ("audio/L").toList)) hm
    · exact natDigits_not_semi bits hm
  have hB : ';' ∉ ("rate=").toList ++ natDigits rate := by
    intro hm
    rcases List.mem_append.mp hm with hm | hm
    · exact (by decide : ¬ (';' ∈ ("rate=").toList)) hm
    · exact natDigits_not_semi rate hm
  rw [parse_audio_mime_type, hfmt, pySplit_append _ _ _ hA, pySplit_no_sep _ _ hB]
  simp only [List.foldl_cons, List.foldl_nil]
  rw [parseParam_format_bits, parseParam_format_rate]

/-- Witness for C6 at rate 24000 and 16 bits. -/
theorem C6_mime_roundtrip_witness :
    parse_audio_mime_type (formatMime 24000 16) =
      { bits_per_sample := 16, rate := 24000 } :=
  C6_mime_roundtrip 24000 16 (by norm_num) (by norm_num)

end C6
section C2

/-- The simulation relation between the loop state of `recordAux`
(`silence_start` as a frame index) and the silent-run counter of
`captureSpecAux`: an unset timer corresponds to a run of zero, a timer
set at frame `k ≤ n` corresponds to a run of `n - k + 1` silent frames. -/
def recRel (ss : Option ℕ) (run n : ℕ) : Prop :=
  match ss with
  | none => run = 0
  | some k => k ≤ n ∧ run = n - k + 1

theorem recordAux_eq_spec (sr csize : ℕ) (dur : ℚ) (rs : List ℚ) :
    ∀ (n run : ℕ) (ss : Option ℕ), recRel ss run n →
    recordAux sr csize dur rs n ss = captureSpecAux sr csize dur rs n run := by
  induction rs with
  | nil => intro n run ss _; rfl
  | cons r rest ih =>
    intro n run ss hrel
    simp only [recordAux, captureSpecAux]
    by_cases hg : ((n * csize : ℕ) : ℚ) < dur * sr
    · rw [if_pos hg, if_pos hg]
      by_cases hr : r < 100
      · cases ss with
        | none =>
          have hrun : run = 0 := hrel
          subst hrun
          have hb : silenceBreak sr csize (n + 1) none r = false := by
            simp [silenceBreak, hr]
          have hcond : ¬ ((5 : ℚ)/2 ≤
              ((((if r < 100 then 0 + 1 else 0) - 1 : ℕ) : ℚ) * csize) / sr) := by
            rw [if_pos hr]
            norm_num
          rw [hb]
          simp only [Bool.false_eq_true, if_false]
          rw [if_neg hcond]
          have hns : nextSilence (n + 1) none r = some (n + 1) := by
            simp [nextSilence, hr]
          rw [hns, if_pos hr]
          exact ih (n + 1) 1 (some (n + 1)) ⟨Nat.le_refl _, by omega⟩
        | some k =>
          obtain ⟨hk, hrun⟩ := hrel
          have heq : ((if r < 100 then run + 1 else 0) - 1 : ℕ) = (n + 1 - k : ℕ) := by
            rw [if_pos hr]
            omega
          rw [heq]
          by_cases hc : (5 : ℚ)/2 ≤ (((n + 1 - k : ℕ) : ℚ) * csize) / sr
          · have hb : silenceBreak sr csize (n + 1) (some k) r = true := by
              simp [silenceBreak, hr, hc]
            rw [hb]
            simp only [eq_self_iff_true, if_true]
            rw [if_pos hc]
          · have hb : silenceBreak sr csize (n + 1) (some k) r = false := by
              simp [silenceBreak, hr, hc]
            rw [hb]
            simp only [Bool.false_eq_true, if_false]
            rw [if_neg hc]
            have hns : nextSilence (n + 1) (some k) r = some k := by
              simp [nextSilence, hr]
            rw [hns, if_pos hr]
            exact ih (n + 1) (run + 1) (some k) ⟨by omega, by omega⟩
      · have hb : silenceBreak sr csize (n + 1) ss r = false := by
          simp [silenceBreak, hr]
        have hcond : ¬ ((5 : ℚ)/2 ≤
            ((((if r < 100 then run + 1 else 0) - 1 : ℕ) : ℚ) * csize) / sr) := by
          rw [if_neg hr]
          norm_num
        rw [hb]
        simp only [Bool.false_eq_true, if_false]
        rw [if_neg hcond]
        have hns : nextSilence (n + 1) ss r = none := by
          simp [nextSilence, hr]
        rw [hns, if_neg hr]
        exact ih (n + 1) 0 none rfl
    · rw [if_neg hg, if_neg hg]

/-- C2: the capture loop maintains the endpointing invariant — the
silence timer resets to `None` on every chunk whose RMS loudness is at or
above the threshold of 100 — and, frame counts standing for the
wall-clock at one-frame granularity, the loop stops exactly as the
specification's stopping rule dictates: at the first chunk completing
2.5 s of continuous silence or at the first chunk reaching the
caller-supplied duration ceiling, whichever comes first. -/
theorem C2_capture_endpointing :
    (∀ (n : ℕ) (ss : Option ℕ) (rms : ℚ), 100 ≤ rms →
      nextSilence n ss rms = none) ∧
    (∀ (sr : ℕ) (dur : ℚ) (rmsStream : List ℚ),
      record_audio_frames sr dur rmsStream = captureSpecFrames sr dur rmsStream) := by
  constructor
  · intro n ss rms h
    simp [nextSilence, not_lt.mpr h]
  · intro sr dur rs
    exact recordAux_eq_spec sr (sr / 10) dur rs 0 0 none rfl

/-- Witness for C2: a loud chunk resets a running timer, and a concrete
run of the loop agrees with the specification's stopping rule. -/
theorem C2_capture_endpointing_witness :
    nextSilence 3 (some 1) 150 = none ∧
    record_audio_frames 16000 1 [0, 0] = captureSpecFrames 16000 1 [0, 0] :=
  ⟨C2_capture_endpointing.1 3 (some 1) 150 (by norm_num),
   C2_capture_endpointing.2 16000 1 [0, 0]⟩

end C2
section C9

theorem pyStrip_all_ws (l : List Char) (h : ∀ c ∈ l, c.isWhitespace = true) :
    pyStrip l = [] := by
  unfold pyStrip
  have h1 : l.dropWhile Char.isWhitespace = [] := by
    rw [List.dropWhile_eq_nil_iff]
    exact h
  rw [h1]
  rfl

/-- C9: for every turn of the local transport in which synthesis
succeeded and a nonempty buffer was captured, a recognition response
consisting only of whitespace (or empty) completes the turn with the
"No speech detected" payload — not an error — and the returned timing
report still contains entries for the `record` and `stt` phases. -/
theorem C9_whitespace_transcript_no_speech (inp : TurnInput) (s : List Char)
    (hts : inp.ttsSuccess = true) (hlen : inp.audioLen ≠ 0)
    (hraw : inp.sttRaw = some s) (hws : ∀ c ∈ s, c.isWhitespace = true) :
    (converse_local inp).1 = TurnResult.noSpeech ∧
    ((converse_local inp).2.lookup ("record")).isSome = true ∧
    ((converse_local inp).2.lookup ("stt")).isSome = true := by
  have hstt : speech_to_text_result inp.sttRaw = none := by
    rw [hraw]
    show (if pyStrip s = [] then none else some (pyStrip s) : Option (List Char)) = none
    rw [pyStrip_all_ws s hws]
    rfl
  unfold converse_local
  rw [hts, hstt]
  simp only [Bool.not_true, Bool.false_eq_true, if_false, if_neg hlen]
  cases hm : inp.ttsMetrics with
  | none => simp [List.lookup]
  | some m => simp [List.lookup]

/-- Witness for C9 at a concrete turn whose transcript is whitespace. -/
theorem C9_whitespace_transcript_no_speech_witness :
    (converse_local
      { ttsSuccess := true, ttsMetrics := none, ttsTotal := 1,
        recordDur := 2, sttDur := 3, audioLen := 5,
        sttRaw := some ((" ").toList) }).1 = TurnResult.noSpeech ∧
    ((converse_local
      { ttsSuccess := true, ttsMetrics := none, ttsTotal := 1,
        recordDur := 2, sttDur := 3, audioLen := 5,
        sttRaw := some ((" ").toList) }).2.lookup ("record")).isSome = true ∧
    ((converse_local
      { ttsSuccess := true, ttsMetrics := none, ttsTotal := 1,
        recordDur := 2, sttDur := 3, audioLen := 5,
        sttRaw := some ((" ").toList) }).2.lookup ("stt")).isSome = true :=
  C9_whitespace_transcript_no_speech _ ((" ").toList) rfl (by norm_num) rfl
    (by decide)

end C9
section C8

/-- The provider id of a successful resolution, `none` on a raised error. -/
def ttsProviderOf (r : Except String TTSConfig) : Option String :=
  match r with
  | Except.ok c => some c.provider
  | Except.error _ => none

theorem tts_unknown_explicit (env : ResolverEnv) (st : VoiceSettings)
    (p : String) (voice model instructions : Option String)
    (hp : providerLookup p = none) :
    ttsProviderOf (get_tts_config env st (some p) voice model instructions) =
      some ("openai") := by
  have hpg : p ≠ "gemini" := by
    intro h
    subst h
    revert hp
    decide
  cases voice <;> cases model <;> cases instructions <;>
    (simp [get_tts_config, ttsProviderOf, tts_registry_resolve, tts_build_config, bind, Except.bind, hp, hpg, strTruthy] <;>
      rfl)

theorem tts_unknown_saved (env : ResolverEnv) (st : VoiceSettings)
    (hp : providerLookup st.tts_provider = none) :
    ttsProviderOf (get_tts_config env st none none none none) =
      some ("openai") := by
  have hpg : st.tts_provider ≠ "gemini" := by
    intro h
    rw [h] at hp
    revert hp
    decide
  simp [get_tts_config, ttsProviderOf, tts_registry_resolve, tts_build_config, bind, Except.bind, hp, hpg, strTruthy] <;>
    rfl

/-- C8: a resolution call whose resolved provider id is unknown to the
registry falls back to the hard default backend — OpenAI for synthesis,
OpenAI Whisper for recognition — and returns a valid config instead of
raising: for synthesis this holds both for an unknown explicit override
and for an unknown saved preference, and for recognition for an unknown
explicit override. -/
theorem C8_unknown_provider_fallback :
    (∀ (env : ResolverEnv) (st : VoiceSettings) (p : String)
      (voice model instructions : Option String),
      providerLookup p = none →
      ttsProviderOf (get_tts_config env st (some p) voice model instructions) =
        some ("openai")) ∧
    (∀ (env : ResolverEnv) (st : VoiceSettings),
      providerLookup st.tts_provider = none →
      ttsProviderOf (get_tts_config env st none none none none) =
        some ("openai")) ∧
    (∀ (env : ResolverEnv) (p : String), providerLookup p = none →
      (get_stt_config env (some p)).provider = "openai-whisper") := by
  refine ⟨tts_unknown_explicit, tts_unknown_saved, ?_⟩
  intro env p hp
  simp [get_stt_config, hp]
  rfl

/-- A concrete resolver environment used by witnesses and counterexamples:
prefer-local enabled, every probe reachable, OpenAI-shaped URL defaults. -/
def sampleEnv : ResolverEnv :=
  { PREFER_LOCAL := true,
    TTS_BASE_URL := "https://api.openai.com/v1",
    STT_BASE_URL := "https://api.openai.com/v1",
    TTS_MODEL := "tts-1", TTS_VOICE := "alloy", STT_MODEL := "whisper-1",
    KOKORO_TTS_BASE_URL := "http://localhost:8880/v1",
    hasKokoroClient := true,
    avail := fun _ => true }

/-- Witness for C8 at the unknown provider id "acme". -/
theorem C8_unknown_provider_fallback_witness :
    ttsProviderOf
      (get_tts_config sampleEnv defaultVoiceSettings (some ("acme")) none none none) =
      some ("openai") ∧
    (get_stt_config sampleEnv (some ("acme"))).provider = "openai-whisper" :=
  ⟨C8_unknown_provider_fallback.1 sampleEnv defaultVoiceSettings ("acme")
      none none none (by decide),
   C8_unknown_provider_fallback.2.2 sampleEnv ("acme") (by decide)⟩

end C8
section C1

/-- Counterexample for C1 as stated: with the prefer-local policy enabled
and the prober reporting the local backend kokoro reachable, a synthesis
resolution with no explicit provider still selects the hosted default —
the saved user preference (whose stock value is "openai") is consulted
first and always supplies a provider, so the prefer-local tier of
`get_tts_config` is never reached. -/
theorem C1_counterexample_prefer_local_unreachable :
    sampleEnv.PREFER_LOCAL = true ∧
    sampleEnv.avail ("kokoro") = true ∧
    defaultVoiceSettings.prefer_local = true ∧
    ttsProviderOf
      (get_tts_config sampleEnv defaultVoiceSettings none none none none) =
      some ("openai") := by
  refine ⟨rfl, rfl, rfl, ?_⟩
  rfl

theorem tts_explicit_provider_wins (env : ResolverEnv) (st : VoiceSettings)
    (voice model instructions : Option String) (p : String)
    (hp : p = "kokoro" ∨ p = "openai") :
    ttsProviderOf (get_tts_config env st (some p) voice model instructions) =
      some p := by
  rcases hp with hp | hp <;> subst hp <;>
    cases voice <;> cases model <;> cases instructions <;>
    (simp [get_tts_config, ttsProviderOf, tts_registry_resolve, tts_build_config, bind, Except.bind, strTruthy,
      providerLookup, PROVIDERS] <;> rfl)

theorem tts_explicit_gemini_wins (env : ResolverEnv) (st : VoiceSettings)
    (voice instructions : Option String) (m : String)
    (hvi : voice.isSome = true ∨ instructions.isSome = true) :
    ttsProviderOf
      (get_tts_config env st (some ("gemini")) voice (some m) instructions) =
      some ("gemini") := by
  cases voice <;> cases instructions
  case none.none =>
    rcases hvi with hvi | hvi <;> simp at hvi
  all_goals
    (simp [get_tts_config, ttsProviderOf, tts_registry_resolve,
      tts_build_config, bind, Except.bind, strTruthy, providerLookup,
      PROVIDERS] <;> rfl)

theorem tts_explicit_gemini_raises (env : ResolverEnv) (st : VoiceSettings)
    (voice model instructions : Option String)
    (h : model = none ∨ (voice = none ∧ instructions = none)) :
    ttsProviderOf
      (get_tts_config env st (some ("gemini")) voice model instructions) =
      none := by
  rcases h with h | ⟨h1, h2⟩
  · subst h
    cases voice <;> cases instructions <;>
      simp [get_tts_config, ttsProviderOf, bind, Except.bind]
  · subst h1
    subst h2
    cases model with
    | none => simp [get_tts_config, ttsProviderOf, bind, Except.bind]
    | some m => simp [get_tts_config, ttsProviderOf, bind, Except.bind]

/-- C1 amended: explicit per-call provider overrides do win — an explicit
kokoro or openai override always determines the resolved provider; an
explicit gemini override does whenever a model is supplied together with
at least one of voice or instructions, and in the remaining cases (model
unset, or voice and instructions both unset) the settings-load lines
read the nonexistent `gemini_model` / `gemini_system_prompt` dataclass
attributes and resolution raises instead of completing — but the
saved-preference tier precedes the prefer-local tier and the saved
synthesis preference always supplies a provider, so the
prefer-local/reachable-local rule selects the local backend only in the
recognition resolver, which consults no saved preference: with no
override, prefer-local enabled and whisper-local reported reachable, the
recognition resolver picks whisper-local; the synthesis resolver with no
override follows the saved provider (shown for the stock "openai"
preference, for any prober verdicts). -/
theorem C1_resolver_precedence :
    (∀ (env : ResolverEnv) (st : VoiceSettings)
      (voice model instructions : Option String) (p : String),
      p = "kokoro" ∨ p = "openai" →
      ttsProviderOf (get_tts_config env st (some p) voice model instructions) =
        some p) ∧
    (∀ (env : ResolverEnv) (st : VoiceSettings)
      (voice instructions : Option String) (m : String),
      voice.isSome = true ∨ instructions.isSome = true →
      ttsProviderOf
        (get_tts_config env st (some ("gemini")) voice (some m) instructions) =
        some ("gemini")) ∧
    (∀ (env : ResolverEnv) (st : VoiceSettings)
      (voice model instructions : Option String),
      model = none ∨ (voice = none ∧ instructions = none) →
      ttsProviderOf
        (get_tts_config env st (some ("gemini")) voice model instructions) =
        none) ∧
    (∀ (env : ResolverEnv) (p : String),
      p = "whisper-local" ∨ p = "openai-whisper" →
      (get_stt_config env (some p)).provider = p) ∧
    (∀ env : ResolverEnv, env.PREFER_LOCAL = true →
      env.avail ("whisper-local") = true →
      (get_stt_config env none).provider = "whisper-local") ∧
    (∀ (env : ResolverEnv) (st : VoiceSettings), st.tts_provider = "openai" →
      ttsProviderOf (get_tts_config env st none none none none) =
        some ("openai")) := by
  refine ⟨tts_explicit_provider_wins, tts_explicit_gemini_wins,
    tts_explicit_gemini_raises, ?_, ?_, ?_⟩
  · intro env p hp
    rcases hp with hp | hp <;> subst hp <;>
      (simp [get_stt_config, providerLookup, PROVIDERS] <;> rfl)
  · intro env h1 h2
    simp [get_stt_config, h1, h2, providerLookup, PROVIDERS]
    rfl
  · intro env st hst
    simp [get_tts_config, ttsProviderOf, tts_registry_resolve, tts_build_config, bind, Except.bind, strTruthy, hst,
      providerLookup, PROVIDERS] <;> rfl

/-- Witness for C1's amended theorem: explicit kokoro override against
the stock openai preference, explicit gemini override with voice unset
but model and instructions supplied, explicit gemini override with
everything else unset (raises), explicit recognition override, the
prefer-local recognition path, and the saved-preference synthesis path,
all at concrete inputs. -/
theorem C1_resolver_precedence_witness :
    ttsProviderOf
      (get_tts_config sampleEnv defaultVoiceSettings (some ("kokoro"))
        none none none) = some ("kokoro") ∧
    ttsProviderOf
      (get_tts_config sampleEnv defaultVoiceSettings (some ("gemini"))
        none (some ("gemini-2.5-flash-preview-tts")) (some ("be calm"))) =
      some ("gemini") ∧
    ttsProviderOf
      (get_tts_config sampleEnv defaultVoiceSettings (some ("gemini"))
        none none none) = none ∧
    (get_stt_config sampleEnv (some ("openai-whisper"))).provider =
      "openai-whisper" ∧
    (get_stt_config sampleEnv none).provider = "whisper-local" ∧
    ttsProviderOf
      (get_tts_config sampleEnv defaultVoiceSettings none none none none) =
      some ("openai") :=
  ⟨C1_resolver_precedence.1 sampleEnv defaultVoiceSettings none none none
      ("kokoro") (Or.inl rfl),
   C1_resolver_precedence.2.1 sampleEnv defaultVoiceSettings none
      (some ("be calm")) ("gemini-2.5-flash-preview-tts") (Or.inr rfl),
   C1_resolver_precedence.2.2.1 sampleEnv defaultVoiceSettings none none none
      (Or.inl rfl),
   C1_resolver_precedence.2.2.2.1 sampleEnv ("openai-whisper") (Or.inr rfl),
   C1_resolver_precedence.2.2.2.2.1 sampleEnv rfl rfl,
   C1_resolver_precedence.2.2.2.2.2 sampleEnv defaultVoiceSettings rfl⟩

end C1
section C4

/-- The instructions field of a successful resolution, `none` on error. -/
def ttsInstructionsOf (r : Except String TTSConfig) : Option (Option String) :=
  match r with
  | Except.ok c => some c.instructions
  | Except.error _ => none

theorem tts_build_config_no_instructions (env : ResolverEnv) (p : String)
    (info : ProviderInfo) (voice model : Option String) :
    (tts_build_config env p info voice model none).instructions = none := by
  unfold tts_build_config
  split
  · rfl
  · split <;> rfl

theorem tts_build_config_emotion_model (env : ResolverEnv) (p : String)
    (info : ProviderInfo) (voice i : Option String) :
    (tts_build_config env p info voice (some ("gpt-4o-mini-tts")) i).instructions =
      none ∨
    (tts_build_config env p info voice (some ("gpt-4o-mini-tts")) i).model =
      "gpt-4o-mini-tts" := by
  unfold tts_build_config
  split
  · exact Or.inl rfl
  · split <;> exact Or.inr (by simp [orElseStr])

theorem tts_drop_instructions_succeeds (env : ResolverEnv) (st : VoiceSettings)
    (prov voice : Option String) (m i : String)
    (hi : i ≠ "") (hm : m ≠ "gpt-4o-mini-tts") :
    ttsInstructionsOf (get_tts_config env st prov voice (some m) (some i)) =
      some none := by
  have hstr : strTruthy (some i) = true := by simp [strTruthy, hi]
  have hmb : (some m == some ("gpt-4o-mini-tts")) = false := by simp [hm]
  cases prov <;> cases voice <;>
    simp [get_tts_config, ttsInstructionsOf, bind, Except.bind, hstr, hmb,
      tts_build_config_no_instructions]

theorem tts_resolved_unsupported_no_instructions (env : ResolverEnv)
    (st : VoiceSettings) (prov voice model : Option String) (i : String)
    (c : TTSConfig) (hi : i ≠ "")
    (hok : get_tts_config env st prov voice model (some i) = Except.ok c)
    (hm : c.model ≠ "gpt-4o-mini-tts") : c.instructions = none := by
  have hstr : strTruthy (some i) = true := by simp [strTruthy, hi]
  by_cases hmg : model = some ("gpt-4o-mini-tts")
  · subst hmg
    simp [get_tts_config, bind, Except.bind, hstr] at hok
    subst hok
    rcases tts_build_config_emotion_model env _ _ _ _ with hni | hmod
    · exact hni
    · exact absurd hmod hm
  · cases model with
    | none =>
      simp [get_tts_config, bind, Except.bind, hstr] at hok
      split at hok <;> simp at hok
      subst hok
      exact tts_build_config_no_instructions _ _ _ _ _
    | some m =>
      have hmne : m ≠ "gpt-4o-mini-tts" := fun h => hmg (by rw [h])
      simp [get_tts_config, bind, Except.bind, hstr, hmne] at hok
      subst hok
      exact tts_build_config_no_instructions _ _ _ _ _

end C4

section C4main

theorem validate_switch_log_cases (ALLOW_EMOTIONS : Bool)
    (model instr prov : Option String)
    (h : (validate_emotion_request ALLOW_EMOTIONS model instr prov).2 = true) :
    model = some ("gpt-4o-mini-tts") ∧ ALLOW_EMOTIONS = true ∧
      prov ≠ some ("openai") := by
  unfold validate_emotion_request at h
  by_cases h1 : strTruthy instr = true
  · simp only [h1, Bool.not_true, Bool.false_eq_true, if_false] at h
    by_cases h2 : (model == some ("gpt-4o-mini-tts")) = true
    · simp only [h2, if_true] at h
      by_cases h3 : ALLOW_EMOTIONS = true
      · simp only [h3, Bool.not_true, Bool.false_eq_true, if_false] at h
        refine ⟨by simpa using h2, h3, ?_⟩
        intro hp
        rw [hp] at h
        simp at h
      · simp only [Bool.not_eq_true] at h3
        simp [h3] at h
    · simp [h2] at h
  · simp only [Bool.not_eq_true] at h1
    simp [h1] at h

/-- C4: whenever per-call style instructions are supplied (nonempty) yet
the model does not advertise instruction support — in the source the
support set is exactly the `gpt-4o-mini-tts` model; the registry carries
no finer per-model capability tag — the resolved config carries no
instructions and resolution still succeeds: with an explicit unsupported
model the call returns a config whose instructions are dropped (never an
error), and on every successful resolution whose resolved model is not
`gpt-4o-mini-tts` the config carries no instructions; the
provider-switch note is logged by `validate_emotion_request` only in the
emotion-capable-model policy-gate case (emotion model requested,
emotions allowed, provider not already openai). -/
theorem C4_instruction_capability_gating :
    (∀ (env : ResolverEnv) (st : VoiceSettings) (prov voice : Option String)
      (m i : String), i ≠ "" → m ≠ "gpt-4o-mini-tts" →
      ttsInstructionsOf (get_tts_config env st prov voice (some m) (some i)) =
        some none) ∧
    (∀ (env : ResolverEnv) (st : VoiceSettings)
      (prov voice model : Option String) (i : String) (c : TTSConfig),
      i ≠ "" → get_tts_config env st prov voice model (some i) = Except.ok c →
      c.model ≠ "gpt-4o-mini-tts" → c.instructions = none) ∧
    (∀ (ALLOW_EMOTIONS : Bool) (model instr prov : Option String),
      (validate_emotion_request ALLOW_EMOTIONS model instr prov).2 = true →
      model = some ("gpt-4o-mini-tts") ∧ ALLOW_EMOTIONS = true ∧
        prov ≠ some ("openai")) :=
  ⟨tts_drop_instructions_succeeds, tts_resolved_unsupported_no_instructions,
   validate_switch_log_cases⟩

/-- Witness for C4: instructions supplied with the non-supporting model
tts-1 get dropped while resolution succeeds, and the logged
provider-switch at a concrete gate instance implies the gate facts. -/
theorem C4_instruction_capability_gating_witness :
    ttsInstructionsOf
      (get_tts_config sampleEnv defaultVoiceSettings (some ("openai"))
        (some ("nova")) (some ("tts-1")) (some ("speak cheerfully"))) =
      some none ∧
    (some ("gpt-4o-mini-tts") = some ("gpt-4o-mini-tts") ∧ true = true ∧
      some ("kokoro") ≠ some ("openai")) :=
  ⟨C4_instruction_capability_gating.1 sampleEnv defaultVoiceSettings
      (some ("openai")) (some ("nova")) ("tts-1") ("speak cheerfully")
      (by decide) (by decide),
   C4_instruction_capability_gating.2.2 true (some ("gpt-4o-mini-tts"))
      (some ("be excited")) (some ("kokoro")) (by decide)⟩

end C4main
section C10

/-- An environment with every variable unset. -/
def emptyEnvVars : EnvVars :=
  { TTS_BASE_URL := none, TTS_VOICE := none, TTS_MODEL := none,
    STT_BASE_URL := none, STT_MODEL := none,
    VOICE_MCP_SILENCE_TIMEOUT := none, VOICE_MCP_AUDIO_FEEDBACK := none,
    VOICE_ALLOW_EMOTIONS := none, VOICE_MCP_AUTO_START_KOKORO := none,
    VOICE_MCP_PREFER_LOCAL := none }

/-- Counterexample for C10 as stated: on a fresh manager (no cached
settings, no settings file), `update_setting` with a key that is neither
a field nor any attribute of the settings object (so `hasattr` fails)
does return `False`, but it is not atomic — the `load_settings` call it
makes first creates and persists the default settings file and populates
the cache, so the persisted file and the cache both change. -/
theorem C10_counterexample_unknown_key_not_atomic :
    settingsFieldNames.contains ("bogus") = false ∧
    (update_setting ("2025-01-01") (SettingUpdate.unknownKey ("bogus"))
      { cache := none, file := none, env := emptyEnvVars }).1 = false ∧
    (update_setting ("2025-01-01") (SettingUpdate.unknownKey ("bogus"))
      { cache := none, file := none, env := emptyEnvVars }).2.file ≠ none ∧
    (update_setting ("2025-01-01") (SettingUpdate.unknownKey ("bogus"))
      { cache := none, file := none, env := emptyEnvVars }).2.cache ≠ none := by
  decide

/-- C10 amended: `update_setting(key, value)` returns `False` exactly
when `hasattr(settings, key)` fails, i.e. when the key names neither a
field nor any other attribute of the settings object, and then — once
the settings are loaded (the cache populated) — it leaves the manager
state (cache, persisted file, applied environment) completely unchanged.
For every key with `hasattr` true it returns `True` and runs the full
set/persist/re-apply sequence: a dataclass-field key sets that field; a
non-field attribute key such as `"__repr__"` shadows the class attribute
without touching any field, yet still re-persists the fields with a
fresh `last_updated` stamp and re-applies the environment.  On a fresh
manager the `hasattr`-false call still returns `False` without touching
the environment, but the lazy load it performs may create and persist
the default settings file (the counterexample above). -/
theorem C10_update_setting_behavior :
    (∀ (now k : String) (st : ManagerState) (s : VoiceSettings),
      st.cache = some s →
      update_setting now (SettingUpdate.unknownKey k) st = (false, st)) ∧
    (∀ (now : String) (u : SettingUpdate) (st : ManagerState)
      (s : VoiceSettings), u.hasattrHolds = true → st.cache = some s →
      update_setting now u st =
        (true,
         { cache := some ({ u.apply s with last_updated := now }),
           file := some ({ u.apply s with last_updated := now }),
           env := apply_to_environment ({ u.apply s with last_updated := now })
                    st.env })) := by
  constructor
  · intro now k st s hc
    obtain ⟨c, f, e⟩ := st
    simp only at hc
    subst hc
    simp [update_setting, load_settings, SettingUpdate.hasattrHolds]
  · intro now u st s hu hc
    obtain ⟨c, f, e⟩ := st
    simp only at hc
    subst hc
    simp [update_setting, load_settings, save_settings, hu]

/-- Witness for C10's amended theorem: a key with `hasattr` false on a
loaded manager changes nothing and returns `False`; updating the voice
field persists, re-applies, and returns `True`; the non-field attribute
key `__repr__` returns `True` and re-persists the unchanged fields with
a fresh timestamp. -/
theorem C10_update_setting_behavior_witness :
    update_setting ("2025-01-01") (SettingUpdate.unknownKey ("bogus"))
      { cache := some defaultVoiceSettings, file := some defaultVoiceSettings,
        env := emptyEnvVars } =
      (false,
       { cache := some defaultVoiceSettings, file := some defaultVoiceSettings,
         env := emptyEnvVars }) ∧
    update_setting ("2025-01-01") (SettingUpdate.set_tts_voice ("shimmer"))
      { cache := some defaultVoiceSettings, file := some defaultVoiceSettings,
        env := emptyEnvVars } =
      (true,
       { cache := some ({ (SettingUpdate.set_tts_voice ("shimmer")).apply
            defaultVoiceSettings with last_updated := "2025-01-01" }),
         file := some ({ (SettingUpdate.set_tts_voice ("shimmer")).apply
            defaultVoiceSettings with last_updated := "2025-01-01" }),
         env := apply_to_environment
            ({ (SettingUpdate.set_tts_voice ("shimmer")).apply
              defaultVoiceSettings with last_updated := "2025-01-01" })
            emptyEnvVars }) ∧
    (update_setting ("2025-01-01") (SettingUpdate.nonFieldAttr ("__repr__"))
      { cache := some defaultVoiceSettings, file := some defaultVoiceSettings,
        env := emptyEnvVars }).1 = true :=
  ⟨C10_update_setting_behavior.1 ("2025-01-01") ("bogus")
      { cache := some defaultVoiceSettings, file := some defaultVoiceSettings,
        env := emptyEnvVars } defaultVoiceSettings rfl,
   C10_update_setting_behavior.2 ("2025-01-01")
      (SettingUpdate.set_tts_voice ("shimmer"))
      { cache := some defaultVoiceSettings, file := some defaultVoiceSettings,
        env := emptyEnvVars } defaultVoiceSettings (by decide) rfl,
   by
     rw [C10_update_setting_behavior.2 ("2025-01-01")
       (SettingUpdate.nonFieldAttr ("__repr__"))
       { cache := some defaultVoiceSettings, file := some defaultVoiceSettings,
         env := emptyEnvVars } defaultVoiceSettings (by decide) rfl]⟩

end C10
